import Mathlib

/-
Verification of the annona supply-chain compiler (src/annona/chain.py).

The development shallowly embeds the data model and the operations of
chain.py: layers (Supply / Demand / Transshipment), their constraint
generation, the chain registry with its dirty-cache solve lifecycle, and
the error behaviour of the mutating calls.  Python exceptions are modelled
by the PyError type; operations that can raise return Except PyError or a
pair of the mutated state and an optional error (when Python mutates state
before raising).  The external LP solver (pulp) is modelled through an
oracle giving the outcome of each successive solver invocation, following
the solver contract: a status code (negative for infeasible/unbounded,
mirroring pulp status values) and an objective value.

Python-2 specifics that matter here and are modelled faithfully:
  - "raise C" where C is an exception class instantiates C with no
    arguments; if C.__init__ requires arguments this raises TypeError.
  - "raise Name" where Name is an undefined global raises NameError.
  - attribute access on an object lacking the attribute raises
    AttributeError.
  - max(None, n) = n for an integer n (None compares below every number).
  - "if x:" on a container is a non-emptiness test.
-/

/-- Python runtime errors that chain.py can surface.  dimensionMismatch
carries the two lengths passed to DimensionMismatchException(d1, d2);
keyError models dict KeyError (also used for the layer-object dereference,
which cannot fail in Python since dict keys are the objects themselves and
is unreachable for chains built through the API). -/
inductive PyError where
  | dimensionMismatch (d1 d2 : Nat)
  | layerNotAttached
  | typeError
  | nameError
  | attributeError
  | indexError
  | keyError
deriving DecidableEq

/-- A pulp linear expression: a formal sum of (coefficient, variable-name)
terms plus a constant. -/
structure LinExp where
  terms : List (Int × String)
  const : Int
deriving DecidableEq

/-- The zero linear expression. -/
def LinExp.zero : LinExp := ⟨[], 0⟩

/-- Sum of two linear expressions. -/
def LinExp.add (a b : LinExp) : LinExp :=
  ⟨a.terms ++ b.terms, a.const + b.const⟩

/-- Difference of two linear expressions. -/
def LinExp.sub (a b : LinExp) : LinExp :=
  ⟨a.terms ++ b.terms.map (fun t => (-t.1, t.2)), a.const - b.const⟩

/-- Evaluate a linear expression under an assignment of the variables. -/
def LinExp.eval (σ : String → Int) (e : LinExp) : Int :=
  e.const + (e.terms.map (fun t => t.1 * σ t.2)).sum

/-- A pulp LpConstraint: expression, pulp sense (-1 for ≤, 0 for =, 1 for
≥) and right-hand side.  pulp permits rhs to be omitted (None), in which
case the constraint behaves as if the right-hand side were 0. -/
structure LpConstraint where
  lhs : LinExp
  sense : Int
  rhs : Option Int
  cname : String
deriving DecidableEq

/-- Satisfaction of a constraint under an assignment (pulp treats an
absent rhs as 0). -/
def LpConstraint.satisfiedB (σ : String → Int) (c : LpConstraint) : Bool :=
  let l := c.lhs.eval σ
  let r := c.rhs.getD 0
  if c.sense < 0 then decide (l ≤ r)
  else if 0 < c.sense then decide (r ≤ l)
  else decide (l = r)

/-- A numpy 2-D array with its shape recorded explicitly (needed because
numpy keeps the column count of a 0-row array). -/
structure NpMat (α : Type) where
  rows : Nat
  cols : Nat
  data : List (List α)
deriving DecidableEq

/-- Shape of a numpy matrix, as the (rows, cols) pair compared by
add_dist. -/
def NpMat.shape {α : Type} (m : NpMat α) : Nat × Nat := (m.rows, m.cols)

/-- Entry of a matrix, with a default for out-of-range access (used only
at indices inside the recorded shape). -/
def NpMat.entry {α : Type} (m : NpMat α) (i j : Nat) (d : α) : α :=
  (m.data.getD i []).getD j d

/-- Python list indexing: xs[i], raising IndexError when out of range. -/
def pyIndex {α : Type} (xs : List α) (i : Nat) : Except PyError α :=
  match xs[i]? with
  | some x => Except.ok x
  | none => Except.error PyError.indexError

/-- Run an error-raising function over a list, stopping at the first
error (the order in which a Python loop or comprehension raises). -/
def mapE {α β : Type} (f : α → Except PyError β) : List α → Except PyError (List β)
  | [] => Except.ok []
  | x :: xs =>
    match f x with
    | Except.error e => Except.error e
    | Except.ok y =>
      match mapE f xs with
      | Except.error e => Except.error e
      | Except.ok ys => Except.ok (y :: ys)

/-- Association-list lookup, modelling Python dict access. -/
def lookupA {β : Type} (m : List (Nat × β)) (k : Nat) : Option β :=
  (m.find? (fun p => p.1 = k)).map Prod.snd

/-- Association-list update, modelling Python dict assignment
(overwrites an existing key, otherwise appends). -/
def updateA {β : Type} (m : List (Nat × β)) (k : Nat) (v : β) : List (Nat × β) :=
  if m.any (fun p => p.1 = k) then
    m.map (fun p => if p.1 = k then (k, v) else p)
  else m ++ [(k, v)]

/-- Association-list deletion, modelling Python del. -/
def removeA {β : Type} (m : List (Nat × β)) (k : Nat) : List (Nat × β) :=
  m.filter (fun p => ¬ p.1 = k)

/-- One open/closed indicator entry: a binary pulp variable for a
selectable-location layer, or a plain integer (all ones at construction;
set_ys stores plain 0/1 integers). -/
inductive YEntry where
  | yvar (v : String)
  | yconst (n : Int)
deriving DecidableEq

/-- The linear expression m * y for an indicator entry y. -/
def mulY (m : Int) (y : YEntry) : LinExp :=
  match y with
  | YEntry.yvar v => ⟨[(m, v)], 0⟩
  | YEntry.yconst n => ⟨[], m * n⟩

/-- np.sum over the indicator vector. -/
def sumY (ys : List YEntry) : LinExp :=
  ys.foldr (fun y acc => LinExp.add (mulY 1 y) acc) LinExp.zero

/-- fixed_costs.dot(ys): the fixed-cost objective term. -/
def dotY (cs : List Int) (ys : List YEntry) : LinExp :=
  ((cs.zip ys).map (fun p => mulY p.1 p.2)).foldr LinExp.add LinExp.zero

/-- The Python subclass of a layer (chain.py only ever instantiates the
three subclasses, which differ in get_constraints). -/
inductive LayerKind where
  | supply
  | demand
  | transshipment
deriving DecidableEq

/-- A ChainLayer object (chain.py lines 112-184).  pmin/pmax are present
only on selectable-location layers (absent attributes are modelled as
none); in_arcs / out_arcs / dist are absent until populated. -/
structure ChainLayer where
  kind : LayerKind
  lname : String
  constraints : List (Option Int)
  size : Nat
  attached : Bool
  fixed_locs : Bool
  pmin : Option Int
  pmax : Option Int
  ys : List YEntry
  fixed_costs : List Int
  in_arcs : Option (NpMat String)
  out_arcs : Option (NpMat String)
  dist : Option (NpMat Int)
  los_constraints : List LpConstraint
deriving DecidableEq

/-- ChainLayer.__init__ (chain.py lines 114-132): appends an underscore
to the name, takes size from the constraint list, defaults pmax to size
and fixed costs to zeros, and builds the indicator vector (binary pulp
variables when selectable, all ones when fixed). -/
def ChainLayer.init (kind : LayerKind) (nm : String)
    (constraints : List (Option Int)) (fixed_locs : Bool) (pmin : Int)
    (pmax : Option Int) (fixed_costs : Option (List Int)) : ChainLayer :=
  let size := constraints.length
  let fullName := nm ++ "_"
  { kind := kind
    lname := fullName
    constraints := constraints
    size := size
    attached := false
    fixed_locs := fixed_locs
    pmin := if fixed_locs then none else some pmin
    pmax := if fixed_locs then none else some (pmax.getD (Int.ofNat size))
    ys := if fixed_locs then List.replicate size (YEntry.yconst 1)
          else (List.range size).map (fun i => YEntry.yvar (fullName ++ "_Y" ++ toString i))
    fixed_costs := fixed_costs.getD (List.replicate size 0)
    in_arcs := none
    out_arcs := none
    dist := none
    los_constraints := [] }

/-- add_in_arcs: overwrite the stored in-arc block. -/
def ChainLayer.add_in_arcs (l : ChainLayer) (b : NpMat String) : ChainLayer :=
  { l with in_arcs := some b }

/-- add_out_arcs: overwrite the stored out-arc block. -/
def ChainLayer.add_out_arcs (l : ChainLayer) (b : NpMat String) : ChainLayer :=
  { l with out_arcs := some b }

/-- np.sum(in_arcs, 0): per destination node, the sum of the inbound
flow variables (a vector of length cols). -/
def inputTotalsOf (b : NpMat String) : List LinExp :=
  (List.range b.cols).map (fun j =>
    ⟨(List.range b.rows).map (fun i => (1, b.entry i j "")), 0⟩)

/-- np.sum(out_arcs, 1): per source node, the sum of the outbound flow
variables (a vector of length rows). -/
def outputTotalsOf (b : NpMat String) : List LinExp :=
  (List.range b.rows).map (fun i =>
    ⟨(List.range b.cols).map (fun j => (1, b.entry i j "")), 0⟩)

/-- get_input_totals (chain.py line 150): AttributeError when no in-arc
block has been attached. -/
def ChainLayer.get_input_totals (l : ChainLayer) : Except PyError (List LinExp) :=
  match l.in_arcs with
  | none => Except.error PyError.attributeError
  | some b => Except.ok (inputTotalsOf b)

/-- get_output_totals (chain.py line 152). -/
def ChainLayer.get_output_totals (l : ChainLayer) : Except PyError (List LinExp) :=
  match l.out_arcs with
  | none => Except.error PyError.attributeError
  | some b => Except.ok (outputTotalsOf b)

/-- add_dist (chain.py lines 143-147).  On a shape mismatch the source
executes a bare "raise DimensionMismatchException"; since
DimensionMismatchException.__init__ (line 253) requires the two
dimension arguments, instantiating the class with no arguments raises
TypeError, not a DimensionMismatchException. -/
def ChainLayer.add_dist (l : ChainLayer) (dist : Option (NpMat Int)) :
    Except PyError ChainLayer :=
  match dist with
  | none => Except.ok l
  | some d =>
    match l.in_arcs with
    | none => Except.error PyError.attributeError
    | some b =>
      if d.shape ≠ b.shape then Except.error PyError.typeError
      else Except.ok { l with dist := some d }

/-- get_pmin_constraint (chain.py lines 156-159). -/
def ChainLayer.get_pmin_constraint (l : ChainLayer) :
    Except PyError (Option LpConstraint) :=
  if l.fixed_locs then Except.ok none
  else
    match l.pmin with
    | none => Except.error PyError.attributeError
    | some p => Except.ok (some ⟨sumY l.ys, 1, some p, l.lname ++ "_Pmin"⟩)

/-- get_pmax_constraint (chain.py lines 160-163). -/
def ChainLayer.get_pmax_constraint (l : ChainLayer) :
    Except PyError (Option LpConstraint) :=
  if l.fixed_locs then Except.ok none
  else
    match l.pmax with
    | none => Except.error PyError.attributeError
    | some p => Except.ok (some ⟨sumY l.ys, -1, some p, l.lname ++ "_Pmax"⟩)

/-- get_fixed_costs (chain.py line 164). -/
def ChainLayer.get_fixed_costs (l : ChainLayer) : LinExp :=
  dotY l.fixed_costs l.ys

/-- The big-M literal of chain.py line 169. -/
def bigM : Int := 10000000000000000

/-- Python-2 max(c, m) where c may be None (None compares below every
integer, so max(None, m) = m). -/
def maxPy2 (c : Option Int) (m : Int) : Int :=
  match c with
  | none => m
  | some v => max v m

/-- get_link_constraints (chain.py lines 166-171): None for
fixed-location layers; otherwise one constraint per node i of the form
outputTotal[i] - max(constraints[i], bigM) * ys[i] ≤ 0.  The source
recomputes get_output_totals() for each i; the value is the same, so one
eager computation is used. -/
def ChainLayer.get_link_constraints (l : ChainLayer) :
    Except PyError (Option (List LpConstraint)) :=
  if l.fixed_locs then Except.ok none
  else
    match l.out_arcs with
    | none => Except.error PyError.attributeError
    | some b =>
      let outT := outputTotalsOf b
      match mapE (fun i =>
        match pyIndex outT i with
        | Except.error e => Except.error e
        | Except.ok o =>
          match pyIndex l.constraints i with
          | Except.error e => Except.error e
          | Except.ok ci =>
            match pyIndex l.ys i with
            | Except.error e => Except.error e
            | Except.ok yi =>
              Except.ok (⟨LinExp.sub o (mulY (maxPy2 ci bigM) yi), -1,
                some 0, l.lname ++ "_link" ++ toString i⟩ : LpConstraint))
        (List.range l.size) with
      | Except.error e => Except.error e
      | Except.ok cs => Except.ok (some cs)

/-- set_ys (chain.py lines 172-180).  The three validation failures
execute "raise InvalidYsError", but no class of that name exists
anywhere in the package, so the raise statement itself raises NameError.
On the success path the new indicators are stored and then
self.chain.refresh_layer(self) is executed; SupplyChain defines no
method refresh_layer (and an unattached layer has chain = None), so this
access raises AttributeError after the mutation.  Mutations performed
before a raise persist, hence the (state, optional error) return. -/
def ChainLayer.set_ys (l : ChainLayer) (new_ys : List Int) :
    ChainLayer × Option PyError :=
  if ¬ (new_ys.all (fun x => x == 0 || x == 1)) then (l, some PyError.nameError)
  else if new_ys.length ≠ l.ys.length then (l, some PyError.nameError)
  else
    match l.pmax with
    | none => (l, some PyError.attributeError)
    | some pmax =>
      if pmax < new_ys.sum then (l, some PyError.nameError)
      else
        match l.pmin with
        | none => (l, some PyError.attributeError)
        | some pmin =>
          if new_ys.sum < pmin then (l, some PyError.nameError)
          else ({ l with ys := new_ys.map YEntry.yconst }, some PyError.attributeError)

/-- set_pmin (chain.py lines 181-182): plain attribute assignment, no
other effect. -/
def ChainLayer.set_pmin (l : ChainLayer) (new_pmin : Int) : ChainLayer :=
  { l with pmin := some new_pmin }

/-- set_pmax (chain.py lines 183-184). -/
def ChainLayer.set_pmax (l : ChainLayer) (new_pmax : Int) : ChainLayer :=
  { l with pmax := some new_pmax }

/-- get_los_constraints: the base class returns None (pass); the
DemandLayer override returns the accumulated list. -/
def ChainLayer.get_los_constraints (l : ChainLayer) : Option (List LpConstraint) :=
  match l.kind with
  | LayerKind.demand => some l.los_constraints
  | _ => none

/-- SupplyLayer.get_constraints (chain.py lines 192-197): one upper
bound on each node output.  The dimension check runs eagerly; the
sequence itself is a generator expression, fully consumed by
_build_constraints, so it is modelled eagerly. -/
def SupplyLayer.get_constraints (l : ChainLayer) : Except PyError (List LpConstraint) :=
  match l.get_output_totals with
  | Except.error e => Except.error e
  | Except.ok outT =>
    if outT.length ≠ l.size then
      Except.error (PyError.dimensionMismatch outT.length l.size)
    else
      mapE (fun p =>
        match pyIndex outT p.1 with
        | Except.error e => Except.error e
        | Except.ok o =>
          Except.ok (⟨o, -1, p.2, l.lname ++ toString (p.1 + 1)⟩ : LpConstraint))
        l.constraints.enum

/-- DemandLayer.get_constraints (chain.py lines 202-207): one lower
bound on each node input. -/
def DemandLayer.get_constraints (l : ChainLayer) : Except PyError (List LpConstraint) :=
  match l.get_input_totals with
  | Except.error e => Except.error e
  | Except.ok inT =>
    if inT.length ≠ l.size then
      Except.error (PyError.dimensionMismatch inT.length l.size)
    else
      mapE (fun p =>
        match pyIndex inT p.1 with
        | Except.error e => Except.error e
        | Except.ok o =>
          Except.ok (⟨o, 1, p.2, l.lname ++ toString (p.1 + 1)⟩ : LpConstraint))
        l.constraints.enum

/-- Python truthiness of a constraint entry: False exactly for None and
for 0 (the "if cons:" guard of chain.py line 240). -/
def truthy (c : Option Int) : Bool :=
  match c with
  | none => false
  | some v => v != 0

/-- TransshipmentLayer.get_constraints (chain.py lines 230-242): two
dimension checks, one clearing equality per node, then one throughput
cap per node whose constraint entry is truthy.  The source is a
generator function, fully consumed by _build_constraints, so it is
modelled eagerly. -/
def TransshipmentLayer.get_constraints (l : ChainLayer) :
    Except PyError (List LpConstraint) :=
  match l.get_input_totals with
  | Except.error e => Except.error e
  | Except.ok inT =>
    match l.get_output_totals with
    | Except.error e => Except.error e
    | Except.ok outT =>
      if inT.length ≠ outT.length then
        Except.error (PyError.dimensionMismatch inT.length outT.length)
      else if inT.length ≠ l.size then
        Except.error (PyError.dimensionMismatch inT.length l.size)
      else
        match mapE (fun i =>
          match pyIndex inT i with
          | Except.error e => Except.error e
          | Except.ok a =>
            match pyIndex outT i with
            | Except.error e => Except.error e
            | Except.ok b =>
              Except.ok (⟨LinExp.sub a b, 0, some 0,
                l.lname ++ toString (i + 1) ++ "_Clear"⟩ : LpConstraint))
          (List.range l.size) with
        | Except.error e => Except.error e
        | Except.ok clears =>
          match mapE (fun p =>
            match pyIndex inT p.1 with
            | Except.error e => Except.error e
            | Except.ok a =>
              Except.ok (⟨a, -1, p.2, l.lname ++ toString (p.1 + 1)⟩ : LpConstraint))
            (l.constraints.enum.filter (fun p => truthy p.2)) with
          | Except.error e => Except.error e
          | Except.ok caps => Except.ok (clears ++ caps)

/-- Dispatch of get_constraints on the Python subclass. -/
def ChainLayer.get_constraints (l : ChainLayer) : Except PyError (List LpConstraint) :=
  match l.kind with
  | LayerKind.supply => SupplyLayer.get_constraints l
  | LayerKind.demand => DemandLayer.get_constraints l
  | LayerKind.transshipment => TransshipmentLayer.get_constraints l

/-- Outcome the external solver reports for one invocation (status
mirrors pulp: 1 optimal, 0 not solved, negative for
infeasible/unbounded/undefined). -/
structure SolveOutcome where
  status : Int
  objValue : Int
deriving DecidableEq

/-- The pulp problem object self.prob: status, the value of the
objective (None until solved), and the constraints added to it. -/
structure LpProb where
  status : Int
  objValue : Option Int
  pconstraints : List LpConstraint
deriving DecidableEq

/-- A SupplyChain (chain.py lines 4-16).  Python keys the network /
variables / fixed_costs dicts by the layer objects themselves; the model
splits object identity (a Nat id) from object state (the heap).  clean
is the dirty-cache flag; prob is absent until the first dirty solve;
solverCalls counts invocations of the external solver. -/
structure SupplyChain where
  cname : String
  heap : List (Nat × ChainLayer)
  network : List (Nat × List (Nat × LinExp))
  variablesA : List (Nat × List (Nat × NpMat String))
  fixed_costs : List (Nat × LinExp)
  clean : Bool
  prob : Option LpProb
  solverCalls : Nat
deriving DecidableEq

/-- SupplyChain.__init__: empty registries, clean = True, and no solved
problem object yet (only the prob_seed exists; the attribute self.prob
is first assigned inside _solve). -/
def SupplyChain.init (nm : String) : SupplyChain :=
  { cname := nm
    heap := []
    network := []
    variablesA := []
    fixed_costs := []
    clean := true
    prob := none
    solverCalls := 0 }

/-- add_layer (chain.py lines 19-29): resets the layer's outgoing entry
in network and variables to empty dicts, re-binds the layer to the chain
(_attach_to_chain only warns when already attached), records the
fixed-cost term computed from the layer's current state, and marks the
chain dirty.  A duplicate registration only prints a warning. -/
def SupplyChain.add_layer (st : SupplyChain) (lid : Nat) (layer : ChainLayer) :
    SupplyChain :=
  let layer2 := { layer with attached := true }
  { st with
    network := updateA st.network lid []
    variablesA := updateA st.variablesA lid []
    heap := updateA st.heap lid layer2
    fixed_costs := updateA st.fixed_costs lid layer2.get_fixed_costs
    clean := false }

/-- remove_layer (chain.py lines 30-44): the try block deletes the
layer's entries and purges it from the inner dicts; a KeyError at any
del aborts the rest of the try block with only a warning.  clean is set
to False in every case (the statement is outside the try). -/
def SupplyChain.remove_layer (st : SupplyChain) (lid : Nat) : SupplyChain :=
  let st2 :=
    if (lookupA st.network lid).isNone then st
    else
      let stA := { st with network := removeA st.network lid }
      if (lookupA stA.variablesA lid).isNone then stA
      else
        let stB := { stA with variablesA := removeA stA.variablesA lid }
        if (lookupA stB.fixed_costs lid).isNone then stB
        else
          let stC := { stB with fixed_costs := removeA stB.fixed_costs lid }
          { stC with
            network := stC.network.map (fun p => (p.1, removeA p.2 lid))
            variablesA := stC.variablesA.map (fun p => (p.1, removeA p.2 lid)) }
  { st2 with clean := false }

/-- The arc-variable block connect_layers allocates: one non-negative
continuous variable per cell, named from the two layer names and the
1-based node indices. -/
def mkArcs (frName toName : String) (r c : Nat) : NpMat String :=
  ⟨r, c, (List.range r).map (fun i => (List.range c).map (fun j =>
    frName ++ toString (i + 1) ++ "->" ++ toName ++ toString (j + 1)))⟩

/-- np.sum(costs * arcs): the cost contribution of one connected pair. -/
def costTermOf (costs : NpMat Int) (arcs : NpMat String) : LinExp :=
  ⟨((List.range costs.rows).map (fun i => (List.range costs.cols).map (fun j =>
      (costs.entry i j 0, arcs.entry i j "")))).flatten, 0⟩

/-- Update the inner dict of a dict-of-dicts at (k1, k2); KeyError when
the outer key is absent (unreachable through the API, which guards on
network membership and keeps the dicts keyed alike). -/
def updateInner {β : Type} (m : List (Nat × List (Nat × β))) (k1 k2 : Nat) (v : β) :
    Except PyError (List (Nat × List (Nat × β))) :=
  match lookupA m k1 with
  | none => Except.error PyError.keyError
  | some inner => Except.ok (updateA m k1 (updateA inner k2 v))

/-- connect_layers (chain.py lines 47-66): fails with LayerNotAttached
when either endpoint is unregistered; otherwise allocates the arc block
from the cost matrix shape, stores it and the cost term, updates the
endpoint layers' arc references, attaches the optional distance matrix
to the destination (whose failure aborts before clean is cleared), and
marks the chain dirty.  Mutations made before a raise persist. -/
def SupplyChain.connect_layers (st : SupplyChain) (frId toId : Nat)
    (costs : NpMat Int) (dist : Option (NpMat Int)) :
    SupplyChain × Option PyError :=
  if (lookupA st.network frId).isNone then (st, some PyError.layerNotAttached)
  else if (lookupA st.network toId).isNone then (st, some PyError.layerNotAttached)
  else
    match lookupA st.heap frId, lookupA st.heap toId with
    | some fr, some toL =>
      let arcs := mkArcs fr.lname toL.lname costs.rows costs.cols
      match updateInner st.variablesA frId toId arcs with
      | Except.error e => (st, some e)
      | Except.ok vars2 =>
        let stA := { st with variablesA := vars2 }
        match updateInner stA.network frId toId (costTermOf costs arcs) with
        | Except.error e => (stA, some e)
        | Except.ok net2 =>
          let stB := { stA with network := net2 }
          let fr2 := fr.add_out_arcs arcs
          let to2 := toL.add_in_arcs arcs
          let stC := { stB with heap := updateA (updateA stB.heap frId fr2) toId to2 }
          match to2.add_dist dist with
          | Except.error e => (stC, some e)
          | Except.ok to3 =>
            ({ stC with heap := updateA stC.heap toId to3, clean := false }, none)
    | _, _ => (st, some PyError.keyError)

/-- The constraints one layer contributes in _build_constraints
(chain.py lines 67-75): get_constraints, then the pmin / pmax
cardinality constraints, the link constraints and the LOS constraints,
each guarded by a Python truthiness test.  A pulp constraint is falsy
exactly when its expression has no variable terms (LpAffineExpression
is a dict of terms), and a list is falsy exactly when empty, so the
guards only drop empty contributions. -/
def buildLayerConstraints (l : ChainLayer) : Except PyError (List LpConstraint) :=
  match l.get_constraints with
  | Except.error e => Except.error e
  | Except.ok base =>
    match l.get_pmin_constraint with
    | Except.error e => Except.error e
    | Except.ok pminC =>
      match l.get_pmax_constraint with
      | Except.error e => Except.error e
      | Except.ok pmaxC =>
        match l.get_link_constraints with
        | Except.error e => Except.error e
        | Except.ok links =>
          let keep := fun (c : LpConstraint) =>
            if c.lhs.terms.isEmpty then ([] : List LpConstraint) else [c]
          base ++ (pminC.map keep).getD [] ++ (pmaxC.map keep).getD []
            ++ links.getD [] ++ (l.get_los_constraints).getD []
            |> Except.ok

/-- _build_constraints over the registered layers in registry order.
The layer objects are recovered from the heap (in Python the dict keys
are the objects; a miss is unreachable through the API). -/
def SupplyChain.build_constraints (st : SupplyChain) :
    Except PyError (List LpConstraint) :=
  match mapE (fun lid =>
    match lookupA st.heap lid with
    | none => Except.error PyError.keyError
    | some l => buildLayerConstraints l) (st.network.map Prod.fst) with
  | Except.error e => Except.error e
  | Except.ok css => Except.ok css.flatten

/-- _solve (chain.py lines 82-93): a no-op on a clean chain; otherwise
self.prob is restarted from the seed (status NotSolved = 0, objective
value None), the constraints and objective are built (a build error
propagates with the fresh problem already assigned), the external
solver is invoked, and clean is set only when the reported status is
non-negative.  The solved objective value and status come from the
solver oracle, indexed by the invocation count. -/
def SupplyChain.solveStep (oracle : Nat → SolveOutcome) (st : SupplyChain) :
    SupplyChain × Option PyError :=
  if st.clean = false then
    let st1 := { st with prob := some ⟨0, none, []⟩ }
    match st1.build_constraints with
    | Except.error e => (st1, some e)
    | Except.ok cs =>
      let out := oracle st1.solverCalls
      let st2 := { st1 with
        prob := some ⟨out.status, some out.objValue, cs⟩
        solverCalls := st1.solverCalls + 1 }
      if out.status < 0 then (st2, none)
      else ({ st2 with clean := true }, none)
  else (st, none)

/-- get_cost (chain.py lines 94-98): solve, then return None when the
last status is negative, else the objective value.  Reading
self.prob.status on a chain that never solved raises AttributeError. -/
def SupplyChain.get_cost (oracle : Nat → SolveOutcome) (st : SupplyChain) :
    SupplyChain × Except PyError (Option Int) :=
  match st.solveStep oracle with
  | (st1, some e) => (st1, Except.error e)
  | (st1, none) =>
    match st1.prob with
    | none => (st1, Except.error PyError.attributeError)
    | some p =>
      if p.status < 0 then (st1, Except.ok none)
      else (st1, Except.ok p.objValue)

/-- get_arc_values (chain.py lines 99-104): solve, return None on a
negative status; on the success path line 103 iterates
self.prob.variables WITHOUT calling it.  In pulp, LpProblem.variables is
a method (the same file calls self.prob.variables() at line 109), and
iterating a bound method object raises TypeError, so the success path
never returns the name-to-value mapping. -/
def SupplyChain.get_arc_values (oracle : Nat → SolveOutcome) (st : SupplyChain) :
    SupplyChain × Except PyError (Option (List (String × Int))) :=
  match st.solveStep oracle with
  | (st1, some e) => (st1, Except.error e)
  | (st1, none) =>
    match st1.prob with
    | none => (st1, Except.error PyError.attributeError)
    | some p =>
      if p.status < 0 then (st1, Except.ok none)
      else (st1, Except.error PyError.typeError)

/-- Indexing inside the bounds succeeds and returns the list entry. -/
theorem pyIndex_ok {α : Type} (xs : List α) (i : Nat) (d : α) (h : i < xs.length) :
    pyIndex xs i = Except.ok (xs.getD i d) := by
  have hg : xs.getD i d = xs[i] := by
    unfold List.getD
    rw [List.get?_eq_getElem?, List.getElem?_eq_getElem h]
    rfl
  unfold pyIndex
  rw [List.getElem?_eq_getElem h, hg]

/-- mapE succeeds pointwise when the function succeeds on every element. -/
theorem mapE_ok {α β : Type} (f : α → Except PyError β) (g : α → β)
    (xs : List α) (h : ∀ a ∈ xs, f a = Except.ok (g a)) :
    mapE f xs = Except.ok (xs.map g) := by
  induction xs with
  | nil => rfl
  | cons x xs ih =>
    have hx := h x (List.mem_cons_self x xs)
    have hrest := ih (fun a ha => h a (List.mem_cons_of_mem x ha))
    simp [mapE, hx, hrest]

/-- The vector of input totals has one entry per column of the block. -/
theorem inputTotalsOf_length (b : NpMat String) :
    (inputTotalsOf b).length = b.cols := by
  simp [inputTotalsOf]

/-- The vector of output totals has one entry per row of the block. -/
theorem outputTotalsOf_length (b : NpMat String) :
    (outputTotalsOf b).length = b.rows := by
  simp [outputTotalsOf]

/-- Every index appearing in an enumerated list is below its length. -/
theorem enumFrom_fst_lt {α : Type} (n : Nat) (xs : List α) (p : Nat × α)
    (hp : p ∈ xs.enumFrom n) : p.1 < n + xs.length := by
  induction xs generalizing n with
  | nil => simp [List.enumFrom] at hp
  | cons x xs ih =>
    simp [List.enumFrom] at hp
    rcases hp with h1 | h2
    · simp [h1]
    · have := ih (n + 1) h2
      simp at this ⊢
      omega

/-- Every index appearing in List.enum is below the list length. -/
theorem enum_fst_lt {α : Type} (xs : List α) (p : Nat × α) (hp : p ∈ xs.enum) :
    p.1 < xs.length := by
  have := enumFrom_fst_lt 0 xs p hp
  omega

/-- Lookup on a cons cell. -/
theorem lookupA_cons {β : Type} (q : Nat × β) (m : List (Nat × β)) (k : Nat) :
    lookupA (q :: m) k = if q.1 = k then some q.2 else lookupA m k := by
  unfold lookupA
  by_cases hq : q.1 = k
  · simp [List.find?_cons, hq]
  · simp [List.find?_cons, hq]

/-- In-place overwrite finds the new value (case where the key occurs). -/
theorem lookupA_map_subst_self {β : Type} (m : List (Nat × β)) (k : Nat) (v : β)
    (h : m.any (fun p => p.1 = k) = true) :
    lookupA (m.map (fun p => if p.1 = k then (k, v) else p)) k = some v := by
  induction m with
  | nil => simp at h
  | cons q m ih =>
    by_cases hq : q.1 = k
    · rw [List.map_cons, if_pos hq, lookupA_cons]
      simp
    · rw [List.map_cons, if_neg hq, lookupA_cons, if_neg hq]
      apply ih
      simp [List.any_cons, hq] at h
      simp [List.any_eq_true]
      exact h

/-- In-place overwrite of one key leaves lookups of other keys alone. -/
theorem lookupA_map_subst_other {β : Type} (m : List (Nat × β)) (k k2 : Nat)
    (v : β) (hne : k2 ≠ k) :
    lookupA (m.map (fun p => if p.1 = k then (k, v) else p)) k2 = lookupA m k2 := by
  induction m with
  | nil => rfl
  | cons q m ih =>
    by_cases hq : q.1 = k
    · rw [List.map_cons, if_pos hq, lookupA_cons, lookupA_cons]
      have h1 : ((k, v) : Nat × β).1 = k2 ↔ False := by simp [Ne.symm hne]
      have h2 : q.1 = k2 ↔ False := by
        constructor
        · intro hh
          exact hne (by omega)
        · intro hh
          exact hh.elim
      rw [if_neg (by simp [h1]), if_neg (by simp [h2])]
      exact ih
    · rw [List.map_cons, if_neg hq, lookupA_cons, lookupA_cons]
      by_cases hq2 : q.1 = k2
      · rw [if_pos hq2, if_pos hq2]
      · rw [if_neg hq2, if_neg hq2]
        exact ih

/-- Appending a fresh key makes it found (case where the key is absent). -/
theorem lookupA_append_self {β : Type} (m : List (Nat × β)) (k : Nat) (v : β)
    (h : m.any (fun p => p.1 = k) = false) :
    lookupA (m ++ [(k, v)]) k = some v := by
  induction m with
  | nil => simp [lookupA, List.find?]
  | cons q m ih =>
    rw [List.any_cons] at h
    rw [Bool.or_eq_false_iff] at h
    rw [List.cons_append, lookupA_cons, if_neg (of_decide_eq_false h.1)]
    exact ih h.2

/-- Appending one key leaves lookups of other keys alone. -/
theorem lookupA_append_other {β : Type} (m : List (Nat × β)) (k k2 : Nat) (v : β)
    (hne : k2 ≠ k) :
    lookupA (m ++ [(k, v)]) k2 = lookupA m k2 := by
  induction m with
  | nil => simp [lookupA, List.find?, Ne.symm hne]
  | cons q m ih =>
    rw [List.cons_append, lookupA_cons, lookupA_cons]
    by_cases hq2 : q.1 = k2
    · rw [if_pos hq2, if_pos hq2]
    · rw [if_neg hq2, if_neg hq2]
      exact ih

/-- Updating a key makes it present with the new value. -/
theorem lookupA_updateA_self {β : Type} (m : List (Nat × β)) (k : Nat) (v : β) :
    lookupA (updateA m k v) k = some v := by
  unfold updateA
  cases h : m.any (fun p => p.1 = k) with
  | true =>
    simp only [h, if_true]
    exact lookupA_map_subst_self m k v h
  | false =>
    simp only [h, Bool.false_eq_true, if_false]
    exact lookupA_append_self m k v h

/-- Updating one key leaves every other key unchanged. -/
theorem lookupA_updateA_other {β : Type} (m : List (Nat × β)) (k k2 : Nat) (v : β)
    (hne : k2 ≠ k) : lookupA (updateA m k v) k2 = lookupA m k2 := by
  unfold updateA
  by_cases h : m.any (fun p => p.1 = k) = true
  · rw [if_pos h]
    exact lookupA_map_subst_other m k k2 v hne
  · rw [if_neg h]
    exact lookupA_append_other m k k2 v hne

/-- Solver oracle reporting optimal with objective value 42 on every
invocation. -/
def oracleOpt : Nat → SolveOutcome := fun _ => ⟨1, 42⟩

/-- Solver oracle reporting infeasible (pulp status -1) on every
invocation. -/
def oracleInf : Nat → SolveOutcome := fun _ => ⟨-1, 0⟩

/-- A selectable-location 2-node supply layer with pmin 0 and pmax 1,
used in the indicator-assignment scenarios. -/
def selLayer2 : ChainLayer :=
  ChainLayer.init LayerKind.supply "S" [some 10, some 10] false 0 (some 1) none

/-- A fixed-location 2-node demand layer holding a 1 by 2 in-arc block,
used in the distance-attachment scenarios. -/
def demandWithArcs : ChainLayer :=
  (ChainLayer.init LayerKind.demand "D" [some 5, some 5] true 0 none none).add_in_arcs
    (mkArcs "S_" "D_" 1 2)

/-- A 1 by 1 distance matrix whose shape disagrees with the in-arc
block of demandWithArcs. -/
def badDist : NpMat Int := ⟨1, 1, [[3]]⟩

/-- A 1 by 2 distance matrix matching the in-arc block of
demandWithArcs. -/
def goodDist : NpMat Int := ⟨1, 2, [[3, 4]]⟩

/-- C8: immediately after construction the chain's dirty flag reads
clean, so the first read skips the build-and-solve path entirely (no
solver invocation) and then fails with AttributeError by reading
self.prob.status on a problem object that does not yet exist, instead
of returning an absent result. -/
theorem C8_fresh_chain_attribute_error (oracle : Nat → SolveOutcome) :
    (SupplyChain.init "c").clean = true ∧
    (SupplyChain.init "c").get_cost oracle =
      (SupplyChain.init "c", Except.error PyError.attributeError) ∧
    (SupplyChain.init "c").get_arc_values oracle =
      (SupplyChain.init "c", Except.error PyError.attributeError) ∧
    ((SupplyChain.init "c").get_cost oracle).1.solverCalls = 0 := by
  exact ⟨rfl, rfl, rfl, rfl⟩

/-- Witness for C8 at a concrete oracle. -/
theorem C8_fresh_chain_attribute_error_witness :
    (SupplyChain.init "c").clean = true ∧
    (SupplyChain.init "c").get_cost oracleOpt =
      (SupplyChain.init "c", Except.error PyError.attributeError) ∧
    (SupplyChain.init "c").get_arc_values oracleOpt =
      (SupplyChain.init "c", Except.error PyError.attributeError) ∧
    ((SupplyChain.init "c").get_cost oracleOpt).1.solverCalls = 0 :=
  C8_fresh_chain_attribute_error oracleOpt

/-- C4 (code bug): on a selectable-location layer, set_ys rejects a
non-binary entry, a wrong length and an out-of-range open count without
mutating the layer, but the raise statement names the undefined class
InvalidYsError and therefore raises NameError, not an
invalid-indicator-assignment error; on a valid assignment the new
indicators are stored and the call then raises AttributeError (the
owning chain has no refresh_layer method), so the chain is never marked
dirty. -/
theorem C4_set_ys_behaviour :
    selLayer2.set_ys [1, 2] = (selLayer2, some PyError.nameError) ∧
    selLayer2.set_ys [1] = (selLayer2, some PyError.nameError) ∧
    selLayer2.set_ys [1, 1] = (selLayer2, some PyError.nameError) ∧
    selLayer2.set_ys [1, 0] =
      ({ selLayer2 with ys := [YEntry.yconst 1, YEntry.yconst 0] },
        some PyError.attributeError) := by
  exact ⟨rfl, rfl, rfl, rfl⟩

/-- C7 (code bug): attaching a distance matrix of mismatched shape
fails before any mutation, but with TypeError (the bare raise of the
two-argument DimensionMismatchException class cannot instantiate it),
not with a DimensionMismatch error; a matching matrix is stored, and an
absent matrix is a no-op. -/
theorem C7_add_dist_behaviour :
    demandWithArcs.add_dist (some badDist) = Except.error PyError.typeError ∧
    demandWithArcs.add_dist (some goodDist) =
      Except.ok { demandWithArcs with dist := some goodDist } ∧
    demandWithArcs.add_dist none = Except.ok demandWithArcs := by
  exact ⟨rfl, rfl, rfl⟩

/-- C9: set_pmin and set_pmax replace only the cardinality bound on the
layer and touch nothing else — in particular they never reach the
owning chain, whose clean flag and cached problem survive, so a
subsequent get_cost on a clean chain returns the previously cached
objective without invoking the solver. -/
theorem C9_set_bounds_frame (l : ChainLayer) (a b : Int) (st : SupplyChain)
    (oracle : Nat → SolveOutcome) (p : LpProb)
    (hclean : st.clean = true) (hprob : st.prob = some p)
    (hstat : 0 ≤ p.status) :
    l.set_pmin a = { l with pmin := some a } ∧
    l.set_pmax b = { l with pmax := some b } ∧
    st.get_cost oracle = (st, Except.ok p.objValue) ∧
    (st.get_cost oracle).1.solverCalls = st.solverCalls := by
  have hns : ¬ p.status < 0 := by omega
  have h3 : st.get_cost oracle = (st, Except.ok p.objValue) := by
    unfold SupplyChain.get_cost SupplyChain.solveStep
    rw [hclean]
    simp [hprob, hns]
  exact ⟨rfl, rfl, h3, by rw [h3]⟩

/-- A chain holding a cached successful solve, for the C9 witness. -/
def cachedChain : SupplyChain :=
  { SupplyChain.init "c" with prob := some ⟨1, some 10, []⟩ }

/-- Witness for C9 at concrete inputs. -/
theorem C9_set_bounds_frame_witness :
    selLayer2.set_pmin 1 = { selLayer2 with pmin := some 1 } ∧
    selLayer2.set_pmax 2 = { selLayer2 with pmax := some 2 } ∧
    cachedChain.get_cost oracleOpt = (cachedChain, Except.ok (some 10)) ∧
    (cachedChain.get_cost oracleOpt).1.solverCalls = cachedChain.solverCalls :=
  C9_set_bounds_frame selLayer2 1 2 cachedChain oracleOpt ⟨1, some 10, []⟩
    rfl rfl (by decide)

/-- C10: re-adding an already-registered layer resets its outgoing
bookkeeping on the chain (the inner network and variable dicts for
pairs where it is the source become empty), recomputes its fixed-cost
term from the layer's current state, leaves the entries of every other
source layer (hence every arc block where it is the destination)
untouched, and marks the chain dirty. -/
theorem C10_re_add_layer (st : SupplyChain) (lid : Nat) (layer : ChainLayer)
    (m : List (Nat × LinExp)) (hreg : lookupA st.network lid = some m) :
    lookupA (st.add_layer lid layer).network lid = some [] ∧
    lookupA (st.add_layer lid layer).variablesA lid = some [] ∧
    lookupA (st.add_layer lid layer).fixed_costs lid =
      some layer.get_fixed_costs ∧
    (∀ k, k ≠ lid →
      lookupA (st.add_layer lid layer).network k = lookupA st.network k ∧
      lookupA (st.add_layer lid layer).variablesA k = lookupA st.variablesA k ∧
      lookupA (st.add_layer lid layer).fixed_costs k = lookupA st.fixed_costs k) ∧
    (st.add_layer lid layer).clean = false := by
  unfold SupplyChain.add_layer
  refine ⟨lookupA_updateA_self _ _ _, lookupA_updateA_self _ _ _,
    lookupA_updateA_self _ _ _, ?_, rfl⟩
  intro k hk
  exact ⟨lookupA_updateA_other _ _ _ _ hk, lookupA_updateA_other _ _ _ _ hk,
    lookupA_updateA_other _ _ _ _ hk⟩

/-- A chain with one registered layer under id 0, for the C10 witness. -/
def oneLayerChain : SupplyChain :=
  (SupplyChain.init "w").add_layer 0 selLayer2

/-- Witness for C10: re-adding the layer registered under id 0. -/
theorem C10_re_add_layer_witness :
    lookupA (oneLayerChain.add_layer 0 selLayer2).network 0 = some [] ∧
    lookupA (oneLayerChain.add_layer 0 selLayer2).variablesA 0 = some [] ∧
    lookupA (oneLayerChain.add_layer 0 selLayer2).fixed_costs 0 =
      some selLayer2.get_fixed_costs ∧
    (∀ k, k ≠ 0 →
      lookupA (oneLayerChain.add_layer 0 selLayer2).network k =
        lookupA oneLayerChain.network k ∧
      lookupA (oneLayerChain.add_layer 0 selLayer2).variablesA k =
        lookupA oneLayerChain.variablesA k ∧
      lookupA (oneLayerChain.add_layer 0 selLayer2).fixed_costs k =
        lookupA oneLayerChain.fixed_costs k) ∧
    (oneLayerChain.add_layer 0 selLayer2).clean = false :=
  C10_re_add_layer oneLayerChain 0 selLayer2 [] rfl

/-- A fixed 1-node supply layer used in the lifecycle scenarios. -/
def demoSupply : ChainLayer :=
  ChainLayer.init LayerKind.supply "S" [some 10] true 0 none none

/-- A fixed 1-node demand layer used in the lifecycle scenarios. -/
def demoDemand : ChainLayer :=
  ChainLayer.init LayerKind.demand "D" [some 5] true 0 none none

/-- A dirty, fully connected 1-supply / 1-demand chain whose
constraint build succeeds, ready to solve. -/
def demoChain : SupplyChain :=
  ((((SupplyChain.init "demo").add_layer 0 demoSupply).add_layer 1
      demoDemand).connect_layers 0 1 ⟨1, 1, [[2]]⟩ none).1

/-- The demo chain after a successful solve (clean, one solver call). -/
def demoSolved : SupplyChain := (demoChain.get_cost oracleOpt).1

/-- C2 (code bug): after an infeasible/unbounded solve the dirty flag
stays set and both readers return an explicit absent result rather than
a stale value; after a successful solve the flag clears and get_cost
returns the fresh objective, but get_arc_values raises TypeError by
iterating the un-called method object self.prob.variables instead of
returning the fresh arc values. -/
theorem C2_solve_cache_behaviour :
    (demoChain.get_cost oracleInf).1.clean = false ∧
    (demoChain.get_cost oracleInf).2 = Except.ok none ∧
    (demoChain.get_arc_values oracleInf).2 = Except.ok none ∧
    (demoChain.get_cost oracleOpt).2 = Except.ok (some 42) ∧
    (demoChain.get_cost oracleOpt).1.clean = true ∧
    (demoChain.get_arc_values oracleOpt).2 = Except.error PyError.typeError := by
  exact ⟨rfl, rfl, rfl, rfl, rfl, rfl⟩

/-- C3 (code bug): on a successful solve two consecutive get_cost calls
invoke the solver exactly once (the second reads the cache), and
add_layer, remove_layer and connect_layers all mark the chain dirty so
the next read re-solves; but setOpenIndicators (set_ys) stores the new
indicators and then raises AttributeError because SupplyChain defines
no refresh_layer method, so it never marks the owning chain dirty. -/
theorem C3_dirty_cache_behaviour :
    (demoChain.get_cost oracleOpt).1.solverCalls = 1 ∧
    ((demoChain.get_cost oracleOpt).1.get_cost oracleOpt).1.solverCalls = 1 ∧
    ((demoChain.get_cost oracleOpt).1.get_cost oracleOpt).2 =
      Except.ok (some 42) ∧
    (demoSolved.add_layer 2 demoSupply).clean = false ∧
    (demoSolved.remove_layer 0).clean = false ∧
    ((demoSolved.connect_layers 0 1 ⟨1, 1, [[2]]⟩ none).1).clean = false ∧
    (((demoSolved.connect_layers 0 1 ⟨1, 1, [[2]]⟩ none).1).get_cost
      oracleOpt).1.solverCalls = 2 ∧
    ({ selLayer2 with attached := true }).set_ys [1, 0] =
      ({ { selLayer2 with attached := true } with
          ys := [YEntry.yconst 1, YEntry.yconst 0] },
        some PyError.attributeError) := by
  exact ⟨rfl, rfl, rfl, rfl, rfl, rfl, rfl, rfl⟩

/-- Sum of negated integers. -/
theorem list_sum_neg (l : List Int) : (l.map (fun x => -x)).sum = -l.sum := by
  induction l with
  | nil => simp
  | cons x l ih =>
    simp [ih]
    ring

/-- Evaluation is additive over formal subtraction. -/
theorem LinExp.eval_sub (σ : String → Int) (a b : LinExp) :
    (LinExp.sub a b).eval σ = a.eval σ - b.eval σ := by
  unfold LinExp.sub LinExp.eval
  rw [List.map_append, List.sum_append, List.map_map]
  have hcomp : ((fun t : Int × String => t.1 * σ t.2) ∘
      fun t : Int × String => (-t.1, t.2)) = fun t : Int × String => -(t.1 * σ t.2) := by
    funext t
    simp [neg_mul]
  rw [hcomp]
  have hneg : (b.terms.map (fun t : Int × String => -(t.1 * σ t.2))).sum =
      -((b.terms.map (fun t : Int × String => t.1 * σ t.2)).sum) := by
    rw [show (fun t : Int × String => -(t.1 * σ t.2)) =
      (fun x : Int => -x) ∘ (fun t : Int × String => t.1 * σ t.2) from rfl]
    rw [← List.map_map]
    exact list_sum_neg _
  rw [hneg]
  ring

/-- Evaluation of an indicator product against a variable entry. -/
theorem eval_mulY_yvar (σ : String → Int) (m : Int) (w : String) :
    (mulY m (YEntry.yvar w)).eval σ = m * σ w := by
  simp [mulY, LinExp.eval]

/-- Reading through a map over List.range. -/
theorem getD_map_range {β : Type} (f : Nat → β) (n i : Nat) (d : β) (h : i < n) :
    ((List.range n).map f).getD i d = f i := by
  have h1 : i < ((List.range n).map f).length := by simpa using h
  unfold List.getD
  rw [List.get?_eq_getElem?, List.getElem?_eq_getElem h1]
  simp

/-- A constraint with pulp sense -1 and an explicit right-hand side is
satisfied exactly when its expression evaluates at most the rhs. -/
theorem satisfiedB_le (σ : String → Int) (e : LinExp) (r : Int) (nm : String) :
    (LpConstraint.mk e (-1) (some r) nm).satisfiedB σ = true ↔ e.eval σ ≤ r := by
  unfold LpConstraint.satisfiedB
  norm_num

/-- The default constraint used for in-bounds list reads. -/
def dfltCons : LpConstraint := ⟨LinExp.zero, 0, none, ""⟩

/-- C5: link constraints exist exactly on selectable-location layers:
for node i the generated constraint is
outputTotal[i] - max(constraints[i], bigM) * ys[i] ≤ 0, whose big-M
coefficient dominates the node's declared capacity whenever one is
present, and which under any assignment is equivalent to
outputTotal[i] ≤ M_i * ys[i] — forcing zero outflow at a closed node
and allowing up to M_i at an open one.  Fixed-location layers generate
none. -/
theorem C5_link_constraint_shape :
    (∀ l : ChainLayer, l.fixed_locs = true →
      l.get_link_constraints = Except.ok none) ∧
    (∀ (l : ChainLayer) (b : NpMat String),
      l.fixed_locs = false → l.out_arcs = some b →
      b.rows = l.size → l.constraints.length = l.size → l.ys.length = l.size →
      ∃ cs, l.get_link_constraints = Except.ok (some cs) ∧
        cs.length = l.size ∧
        ∀ i, i < l.size →
          cs.getD i dfltCons =
            ⟨LinExp.sub ((outputTotalsOf b).getD i LinExp.zero)
              (mulY (maxPy2 (l.constraints.getD i none) bigM)
                (l.ys.getD i (YEntry.yconst 0))), -1, some 0,
              l.lname ++ "_link" ++ toString i⟩ ∧
          (∀ v, l.constraints.getD i none = some v →
            v ≤ maxPy2 (l.constraints.getD i none) bigM) ∧
          (∀ (σ : String → Int) (w : String),
            l.ys.getD i (YEntry.yconst 0) = YEntry.yvar w →
              ((cs.getD i dfltCons).satisfiedB σ = true ↔
                LinExp.eval σ ((outputTotalsOf b).getD i LinExp.zero) ≤
                  maxPy2 (l.constraints.getD i none) bigM * σ w))) := by
  constructor
  · intro l h
    simp [ChainLayer.get_link_constraints, h]
  · intro l b hfix hout hrows hcons hys
    have hlen : (outputTotalsOf b).length = l.size := by
      rw [outputTotalsOf_length, hrows]
    have hfun : ∀ i ∈ List.range l.size,
        (fun i =>
          match pyIndex (outputTotalsOf b) i with
          | Except.error e => Except.error e
          | Except.ok o =>
            match pyIndex l.constraints i with
            | Except.error e => Except.error e
            | Except.ok ci =>
              match pyIndex l.ys i with
              | Except.error e => Except.error e
              | Except.ok yi =>
                Except.ok (⟨LinExp.sub o (mulY (maxPy2 ci bigM) yi), -1,
                  some 0, l.lname ++ "_link" ++ toString i⟩ : LpConstraint)) i =
        Except.ok (⟨LinExp.sub ((outputTotalsOf b).getD i LinExp.zero)
          (mulY (maxPy2 (l.constraints.getD i none) bigM)
            (l.ys.getD i (YEntry.yconst 0))), -1, some 0,
          l.lname ++ "_link" ++ toString i⟩ : LpConstraint) := by
      intro i hi
      have hi2 : i < l.size := List.mem_range.mp hi
      have h1 := pyIndex_ok (outputTotalsOf b) i LinExp.zero (by omega)
      have h2 := pyIndex_ok l.constraints i none (by omega)
      have h3 := pyIndex_ok l.ys i (YEntry.yconst 0) (by omega)
      simp [h1, h2, h3]
    have hmap := mapE_ok _ _ (List.range l.size) hfun
    refine ⟨(List.range l.size).map (fun i =>
      (⟨LinExp.sub ((outputTotalsOf b).getD i LinExp.zero)
        (mulY (maxPy2 (l.constraints.getD i none) bigM)
          (l.ys.getD i (YEntry.yconst 0))), -1, some 0,
        l.lname ++ "_link" ++ toString i⟩ : LpConstraint)), ?_, ?_, ?_⟩
    · unfold ChainLayer.get_link_constraints
      rw [if_neg (by simp [hfix])]
      rw [hout]
      simp only []
      rw [hmap]
    · simp
    · intro i hi
      have hget : ((List.range l.size).map (fun i =>
          (⟨LinExp.sub ((outputTotalsOf b).getD i LinExp.zero)
            (mulY (maxPy2 (l.constraints.getD i none) bigM)
              (l.ys.getD i (YEntry.yconst 0))), -1, some 0,
            l.lname ++ "_link" ++ toString i⟩ : LpConstraint))).getD i dfltCons =
          (⟨LinExp.sub ((outputTotalsOf b).getD i LinExp.zero)
            (mulY (maxPy2 (l.constraints.getD i none) bigM)
              (l.ys.getD i (YEntry.yconst 0))), -1, some 0,
            l.lname ++ "_link" ++ toString i⟩ : LpConstraint) :=
        getD_map_range _ _ _ _ hi
      refine ⟨hget, ?_, ?_⟩
      · intro v hv
        rw [hv]
        unfold maxPy2
        exact le_max_left v bigM
      · intro σ w hw
        rw [hget, satisfiedB_le, LinExp.eval_sub, hw, eval_mulY_yvar]
        omega

/-- The selectable layer with an attached 2 by 1 out-arc block used to
witness the link-constraint theorem. -/
def selLayerOut : ChainLayer := selLayer2.add_out_arcs (mkArcs "S_" "T_" 2 1)

/-- Witness for C5: a fixed-location layer yields no link constraints,
and the concrete selectable layer yields the described ones. -/
theorem C5_link_constraint_shape_witness :
    demoSupply.get_link_constraints = Except.ok none ∧
    (∃ cs, selLayerOut.get_link_constraints = Except.ok (some cs) ∧
      cs.length = selLayerOut.size ∧
      ∀ i, i < selLayerOut.size →
        cs.getD i dfltCons =
          ⟨LinExp.sub ((outputTotalsOf (mkArcs "S_" "T_" 2 1)).getD i LinExp.zero)
            (mulY (maxPy2 (selLayerOut.constraints.getD i none) bigM)
              (selLayerOut.ys.getD i (YEntry.yconst 0))), -1, some 0,
            selLayerOut.lname ++ "_link" ++ toString i⟩ ∧
        (∀ v, selLayerOut.constraints.getD i none = some v →
          v ≤ maxPy2 (selLayerOut.constraints.getD i none) bigM) ∧
        (∀ (σ : String → Int) (w : String),
          selLayerOut.ys.getD i (YEntry.yconst 0) = YEntry.yvar w →
            ((cs.getD i dfltCons).satisfiedB σ = true ↔
              LinExp.eval σ ((outputTotalsOf (mkArcs "S_" "T_" 2 1)).getD i LinExp.zero) ≤
                maxPy2 (selLayerOut.constraints.getD i none) bigM * σ w))) :=
  ⟨C5_link_constraint_shape.1 demoSupply rfl,
    C5_link_constraint_shape.2 selLayerOut (mkArcs "S_" "T_" 2 1)
      rfl rfl rfl rfl rfl⟩

/-- The clearing (flow conservation) constraint a transshipment layer
emits for node i. -/
def clearConsOf (l : ChainLayer) (inT outT : List LinExp) (i : Nat) : LpConstraint :=
  ⟨LinExp.sub (inT.getD i LinExp.zero) (outT.getD i LinExp.zero), 0, some 0,
    l.lname ++ toString (i + 1) ++ "_Clear"⟩

/-- The throughput-cap constraint a transshipment layer emits for node
i with constraint entry c. -/
def capConsOf (l : ChainLayer) (inT : List LinExp) (i : Nat) (c : Option Int) :
    LpConstraint :=
  ⟨inT.getD i LinExp.zero, -1, c, l.lname ++ toString (i + 1)⟩

/-- Claim C1 as stated: when both total vectors match the size,
getConstraints yields the clearing equality for every node and an
upper-bound cap for every node whose constraint entry is present (not
unconstrained); on any length disagreement it fails with
DimensionMismatch. -/
def C1_claimHolds (l : ChainLayer) : Prop :=
  ∀ inT outT, l.get_input_totals = Except.ok inT →
    l.get_output_totals = Except.ok outT →
    l.constraints.length = l.size →
    ((inT.length = l.size → outT.length = l.size →
      ∃ cs, TransshipmentLayer.get_constraints l = Except.ok cs ∧
        ∀ i, i < l.size →
          clearConsOf l inT outT i ∈ cs ∧
          (∀ v, l.constraints.getD i none = some v →
            capConsOf l inT i (some v) ∈ cs)) ∧
    (¬ (inT.length = outT.length ∧ inT.length = l.size) →
      ∃ a b, TransshipmentLayer.get_constraints l =
        Except.error (PyError.dimensionMismatch a b)))

/-- A 1-node transshipment layer with a declared throughput cap of 0
and matching 1 by 1 arc blocks. -/
def zeroCapTrans : ChainLayer :=
  ((ChainLayer.init LayerKind.transshipment "T" [some 0] true 0 none
    none).add_in_arcs (mkArcs "S_" "T_" 1 1)).add_out_arcs (mkArcs "T_" "D_" 1 1)

/-- C1 counterexample: on a node with a declared cap of 0 the claim
requires the upper-bound constraint inputTotal[0] ≤ 0, but the source's
truthiness test "if cons:" drops the constraint for a zero cap, so the
claim as stated fails on zeroCapTrans. -/
theorem C1_counterexample : ¬ C1_claimHolds zeroCapTrans := by
  intro h
  obtain ⟨h1, _h2⟩ := h (inputTotalsOf (mkArcs "S_" "T_" 1 1))
    (outputTotalsOf (mkArcs "T_" "D_" 1 1)) rfl rfl rfl
  obtain ⟨cs, hcs, hmem⟩ := h1 rfl rfl
  have hval : TransshipmentLayer.get_constraints zeroCapTrans =
      Except.ok [clearConsOf zeroCapTrans (inputTotalsOf (mkArcs "S_" "T_" 1 1))
        (outputTotalsOf (mkArcs "T_" "D_" 1 1)) 0] := by rfl
  rw [hval] at hcs
  have hcseq : cs = [clearConsOf zeroCapTrans (inputTotalsOf (mkArcs "S_" "T_" 1 1))
      (outputTotalsOf (mkArcs "T_" "D_" 1 1)) 0] := by
    exact (Except.ok.injEq _ _).mp hcs.symm
  have hcap := (hmem 0 (by decide)).2 0 rfl
  rw [hcseq] at hcap
  rw [List.mem_singleton] at hcap
  exact absurd hcap (by decide)

/-- C1 amended: with both total vectors matching the size,
getConstraints yields the clearing equalities followed by upper-bound
caps for exactly the nodes whose constraint entry is truthy — present
AND nonzero (a declared cap of 0 produces no constraint); on any length
disagreement it fails with DimensionMismatch. -/
theorem C1_amended_transshipment (l : ChainLayer) (inT outT : List LinExp)
    (hin : l.get_input_totals = Except.ok inT)
    (hout : l.get_output_totals = Except.ok outT)
    (hcons : l.constraints.length = l.size) :
    (inT.length = l.size → outT.length = l.size →
      TransshipmentLayer.get_constraints l = Except.ok
        ((List.range l.size).map (fun i => clearConsOf l inT outT i) ++
          (l.constraints.enum.filter (fun p => truthy p.2)).map
            (fun p => capConsOf l inT p.1 p.2))) ∧
    (¬ (inT.length = outT.length ∧ inT.length = l.size) →
      ∃ a b, TransshipmentLayer.get_constraints l =
        Except.error (PyError.dimensionMismatch a b)) := by
  constructor
  · intro hlen1 hlen2
    have hne1 : ¬ inT.length ≠ outT.length := by omega
    have hne2 : ¬ inT.length ≠ l.size := by omega
    have hfc : ∀ i ∈ List.range l.size,
        (fun i => match pyIndex inT i with
          | Except.error e => Except.error e
          | Except.ok a =>
            match pyIndex outT i with
            | Except.error e => Except.error e
            | Except.ok b =>
              Except.ok (⟨LinExp.sub a b, 0, some 0,
                l.lname ++ toString (i + 1) ++ "_Clear"⟩ : LpConstraint)) i =
        Except.ok (clearConsOf l inT outT i) := by
      intro i hi
      have hi2 : i < l.size := List.mem_range.mp hi
      have h1 := pyIndex_ok inT i LinExp.zero (by omega)
      have h2 := pyIndex_ok outT i LinExp.zero (by omega)
      simp [h1, h2, clearConsOf]
    have hclears := mapE_ok _ _ _ hfc
    have hfc2 : ∀ p ∈ l.constraints.enum.filter (fun p => truthy p.2),
        (fun p : Nat × Option Int => match pyIndex inT p.1 with
          | Except.error e => Except.error e
          | Except.ok a =>
            Except.ok (⟨a, -1, p.2, l.lname ++ toString (p.1 + 1)⟩ : LpConstraint)) p =
        Except.ok (capConsOf l inT p.1 p.2) := by
      intro p hp
      have hp2 := (List.mem_filter.mp hp).1
      have hlt : p.1 < l.constraints.length := enum_fst_lt _ _ hp2
      have h1 := pyIndex_ok inT p.1 LinExp.zero (by omega)
      simp [h1, capConsOf]
    have hcaps := mapE_ok _ _ _ hfc2
    unfold TransshipmentLayer.get_constraints
    rw [hin, hout]
    simp only []
    rw [if_neg hne1, if_neg hne2, hclears]
    simp only []
    rw [hcaps]
  · intro hnand
    unfold TransshipmentLayer.get_constraints
    rw [hin, hout]
    simp only []
    by_cases h1 : inT.length = outT.length
    · have h2 : inT.length ≠ l.size := by
        intro hx
        exact hnand ⟨h1, hx⟩
      rw [if_neg (by omega), if_pos h2]
      exact ⟨inT.length, l.size, rfl⟩
    · rw [if_pos h1]
      exact ⟨inT.length, outT.length, rfl⟩

/-- A 2-node transshipment layer (one capped node, one uncapped) with
matching arc blocks, witnessing the amended C1 success case. -/
def witTrans : ChainLayer :=
  ((ChainLayer.init LayerKind.transshipment "T" [some 7, none] true 0 none
    none).add_in_arcs (mkArcs "A_" "T_" 3 2)).add_out_arcs (mkArcs "T_" "B_" 2 4)

/-- A transshipment layer with mismatched total lengths, witnessing the
amended C1 failure case. -/
def witTransBad : ChainLayer :=
  ((ChainLayer.init LayerKind.transshipment "U" [none] true 0 none
    none).add_in_arcs (mkArcs "A_" "U_" 1 1)).add_out_arcs (mkArcs "U_" "B_" 2 5)

/-- Witness for the amended C1 at concrete layers. -/
theorem C1_amended_transshipment_witness :
    TransshipmentLayer.get_constraints witTrans = Except.ok
      ((List.range witTrans.size).map (fun i => clearConsOf witTrans
        (inputTotalsOf (mkArcs "A_" "T_" 3 2))
        (outputTotalsOf (mkArcs "T_" "B_" 2 4)) i) ++
        (witTrans.constraints.enum.filter (fun p => truthy p.2)).map
          (fun p => capConsOf witTrans (inputTotalsOf (mkArcs "A_" "T_" 3 2)) p.1 p.2)) ∧
    (∃ a b, TransshipmentLayer.get_constraints witTransBad =
      Except.error (PyError.dimensionMismatch a b)) :=
  ⟨(C1_amended_transshipment witTrans (inputTotalsOf (mkArcs "A_" "T_" 3 2))
      (outputTotalsOf (mkArcs "T_" "B_" 2 4)) rfl rfl rfl).1 rfl rfl,
    (C1_amended_transshipment witTransBad (inputTotalsOf (mkArcs "A_" "U_" 1 1))
      (outputTotalsOf (mkArcs "U_" "B_" 2 5)) rfl rfl rfl).2 (by decide)⟩

/-- ChainLayer.get_constraints reduces to the supply variant on a
supply layer. -/
theorem get_constraints_supply (l : ChainLayer) (hk : l.kind = LayerKind.supply) :
    l.get_constraints = SupplyLayer.get_constraints l := by
  unfold ChainLayer.get_constraints
  rw [hk]

/-- ChainLayer.get_constraints reduces to the demand variant on a
demand layer. -/
theorem get_constraints_demand (l : ChainLayer) (hk : l.kind = LayerKind.demand) :
    l.get_constraints = DemandLayer.get_constraints l := by
  unfold ChainLayer.get_constraints
  rw [hk]

/-- A supply layer whose out-arc row count disagrees with its size
fails with DimensionMismatch carrying the two lengths. -/
theorem supply_constraints_dim (l : ChainLayer) (b : NpMat String)
    (hout : l.out_arcs = some b) (hne : b.rows ≠ l.size) :
    SupplyLayer.get_constraints l =
      Except.error (PyError.dimensionMismatch b.rows l.size) := by
  have hlen := outputTotalsOf_length b
  unfold SupplyLayer.get_constraints ChainLayer.get_output_totals
  rw [hout]
  simp only []
  rw [if_pos (by omega), hlen]

/-- A supply layer with matching dimensions yields one upper bound per
node. -/
theorem supply_constraints_ok (l : ChainLayer) (b : NpMat String)
    (hout : l.out_arcs = some b) (hrows : b.rows = l.size)
    (hcons : l.constraints.length = l.size) :
    SupplyLayer.get_constraints l = Except.ok
      (l.constraints.enum.map (fun p =>
        (⟨(outputTotalsOf b).getD p.1 LinExp.zero, -1, p.2,
          l.lname ++ toString (p.1 + 1)⟩ : LpConstraint))) := by
  have hlen : (outputTotalsOf b).length = l.size := by
    rw [outputTotalsOf_length, hrows]
  have hfc : ∀ p ∈ l.constraints.enum,
      (fun p : Nat × Option Int =>
        match pyIndex (outputTotalsOf b) p.1 with
        | Except.error e => Except.error e
        | Except.ok o =>
          Except.ok (⟨o, -1, p.2, l.lname ++ toString (p.1 + 1)⟩ : LpConstraint)) p =
      Except.ok (⟨(outputTotalsOf b).getD p.1 LinExp.zero, -1, p.2,
        l.lname ++ toString (p.1 + 1)⟩ : LpConstraint) := by
    intro p hp
    have hlt := enum_fst_lt _ _ hp
    have h1 := pyIndex_ok (outputTotalsOf b) p.1 LinExp.zero (by omega)
    simp [h1]
  have hmap := mapE_ok _ _ _ hfc
  unfold SupplyLayer.get_constraints ChainLayer.get_output_totals
  rw [hout]
  simp only []
  rw [if_neg (by omega), hmap]

/-- A demand layer whose in-arc column count disagrees with its size
fails with DimensionMismatch carrying the two lengths. -/
theorem demand_constraints_dim (l : ChainLayer) (b : NpMat String)
    (hin : l.in_arcs = some b) (hne : b.cols ≠ l.size) :
    DemandLayer.get_constraints l =
      Except.error (PyError.dimensionMismatch b.cols l.size) := by
  have hlen := inputTotalsOf_length b
  unfold DemandLayer.get_constraints ChainLayer.get_input_totals
  rw [hin]
  simp only []
  rw [if_pos (by omega), hlen]

/-- A demand layer with matching dimensions yields one lower bound per
node. -/
theorem demand_constraints_ok (l : ChainLayer) (b : NpMat String)
    (hin : l.in_arcs = some b) (hcols : b.cols = l.size)
    (hcons : l.constraints.length = l.size) :
    DemandLayer.get_constraints l = Except.ok
      (l.constraints.enum.map (fun p =>
        (⟨(inputTotalsOf b).getD p.1 LinExp.zero, 1, p.2,
          l.lname ++ toString (p.1 + 1)⟩ : LpConstraint))) := by
  have hlen : (inputTotalsOf b).length = l.size := by
    rw [inputTotalsOf_length, hcols]
  have hfc : ∀ p ∈ l.constraints.enum,
      (fun p : Nat × Option Int =>
        match pyIndex (inputTotalsOf b) p.1 with
        | Except.error e => Except.error e
        | Except.ok o =>
          Except.ok (⟨o, 1, p.2, l.lname ++ toString (p.1 + 1)⟩ : LpConstraint)) p =
      Except.ok (⟨(inputTotalsOf b).getD p.1 LinExp.zero, 1, p.2,
        l.lname ++ toString (p.1 + 1)⟩ : LpConstraint) := by
    intro p hp
    have hlt := enum_fst_lt _ _ hp
    have h1 := pyIndex_ok (inputTotalsOf b) p.1 LinExp.zero (by omega)
    simp [h1]
  have hmap := mapE_ok _ _ _ hfc
  unfold DemandLayer.get_constraints ChainLayer.get_input_totals
  rw [hin]
  simp only []
  rw [if_neg (by omega), hmap]

/-- A failing get_constraints aborts the layer's constraint build with
the same error. -/
theorem buildLayer_err (l : ChainLayer) (e : PyError)
    (herr : l.get_constraints = Except.error e) :
    buildLayerConstraints l = Except.error e := by
  unfold buildLayerConstraints
  rw [herr]

/-- On a fixed-location layer with no LOS contribution, the layer's
constraint build is exactly its get_constraints output (the cardinality
and link contributions are all absent). -/
theorem buildLayer_fixed_ok (l : ChainLayer) (base : List LpConstraint)
    (hfix : l.fixed_locs = true)
    (hbase : l.get_constraints = Except.ok base)
    (hlos : (l.get_los_constraints).getD [] = []) :
    buildLayerConstraints l = Except.ok base := by
  have hp1 : l.get_pmin_constraint = Except.ok none := by
    unfold ChainLayer.get_pmin_constraint
    rw [if_pos hfix]
  have hp2 : l.get_pmax_constraint = Except.ok none := by
    unfold ChainLayer.get_pmax_constraint
    rw [if_pos hfix]
  have hl : l.get_link_constraints = Except.ok none := by
    unfold ChainLayer.get_link_constraints
    rw [if_pos hfix]
  unfold buildLayerConstraints
  rw [hbase]
  simp only []
  rw [hp1]
  simp only []
  rw [hp2]
  simp only []
  rw [hl]
  simp only []
  rw [hlos]
  simp

/-- A two-layer chain build fails with the first layer's error. -/
theorem build_two_err0 (st : SupplyChain) (l0 : ChainLayer) (e : PyError)
    (hkeys : st.network.map Prod.fst = [0, 1])
    (h0 : lookupA st.heap 0 = some l0)
    (herr : buildLayerConstraints l0 = Except.error e) :
    st.build_constraints = Except.error e := by
  unfold SupplyChain.build_constraints
  rw [hkeys]
  simp only [mapE]
  rw [h0]
  simp only []
  rw [herr]

/-- A two-layer chain build fails with the second layer's error when
the first succeeds. -/
theorem build_two_err1 (st : SupplyChain) (l0 l1 : ChainLayer)
    (cs0 : List LpConstraint) (e : PyError)
    (hkeys : st.network.map Prod.fst = [0, 1])
    (h0 : lookupA st.heap 0 = some l0)
    (h1 : lookupA st.heap 1 = some l1)
    (hok : buildLayerConstraints l0 = Except.ok cs0)
    (herr : buildLayerConstraints l1 = Except.error e) :
    st.build_constraints = Except.error e := by
  unfold SupplyChain.build_constraints
  rw [hkeys]
  simp only [mapE]
  rw [h0]
  simp only []
  rw [hok]
  simp only []
  rw [h1]
  simp only []
  rw [herr]

/-- A dirty solve surfaces a constraint-build error after assigning
the fresh problem object. -/
theorem solveStep_build_err (oracle : Nat → SolveOutcome) (st : SupplyChain)
    (e : PyError) (hdirty : st.clean = false)
    (herr : st.build_constraints = Except.error e) :
    st.solveStep oracle = ({ st with prob := some ⟨0, none, []⟩ }, some e) := by
  unfold SupplyChain.solveStep
  rw [if_pos hdirty]
  simp only []
  have hsame : ({ st with prob := some ⟨0, none, []⟩ } : SupplyChain).build_constraints =
      Except.error e := herr
  rw [hsame]

/-- get_cost propagates an error raised inside the solve. -/
theorem get_cost_err (oracle : Nat → SolveOutcome) (st st1 : SupplyChain)
    (e : PyError) (hss : st.solveStep oracle = (st1, some e)) :
    st.get_cost oracle = (st1, Except.error e) := by
  unfold SupplyChain.get_cost
  rw [hss]

/-- The 2-node supply layer of the dimension-validation scenario. -/
def C6_supplyL : ChainLayer :=
  ChainLayer.init LayerKind.supply "S" [some 10, some 10] true 0 none none

/-- The 3-node demand layer of the dimension-validation scenario. -/
def C6_demandL : ChainLayer :=
  ChainLayer.init LayerKind.demand "D" [some 5, some 5, some 5] true 0 none none

/-- The chain with both scenario layers registered. -/
def C6_base : SupplyChain :=
  ((SupplyChain.init "c6").add_layer 0 C6_supplyL).add_layer 1 C6_demandL

/-- Connecting the scenario layers with an r by c cost matrix. -/
def C6_connect (r c : Nat) (data : List (List Int)) :
    SupplyChain × Option PyError :=
  C6_base.connect_layers 0 1 ⟨r, c, data⟩ none

/-- The supply layer as it sits on the heap after the connection. -/
def C6_supplyArc (r c : Nat) : ChainLayer :=
  ({ C6_supplyL with attached := true }).add_out_arcs (mkArcs "S_" "D_" r c)

/-- The demand layer as it sits on the heap after the connection. -/
def C6_demandArc (r c : Nat) : ChainLayer :=
  ({ C6_demandL with attached := true }).add_in_arcs (mkArcs "S_" "D_" r c)

/-- C6: connecting the 2-node supply layer to the 3-node demand layer
with a cost matrix of any shape other than 2 by 3 raises no error at
connection time, and the next read fails with DimensionMismatch at
constraint-generation time. -/
theorem C6_shape_mismatch (r c : Nat) (data : List (List Int))
    (oracle : Nat → SolveOutcome) (h : ¬ (r = 2 ∧ c = 3)) :
    (C6_connect r c data).2 = none ∧
    ∃ a b, ((C6_connect r c data).1.get_cost oracle).2 =
      Except.error (PyError.dimensionMismatch a b) := by
  refine ⟨rfl, ?_⟩
  have hkeys : (C6_connect r c data).1.network.map Prod.fst = [0, 1] := rfl
  have h0 : lookupA (C6_connect r c data).1.heap 0 = some (C6_supplyArc r c) := rfl
  have h1 : lookupA (C6_connect r c data).1.heap 1 = some (C6_demandArc r c) := rfl
  have hclean : (C6_connect r c data).1.clean = false := rfl
  by_cases hr : r = 2
  · subst hr
    have hc : c ≠ 3 := fun hx => h ⟨rfl, hx⟩
    have hsup := supply_constraints_ok (C6_supplyArc 2 c) (mkArcs "S_" "D_" 2 c)
      rfl rfl rfl
    have hb0 := buildLayer_fixed_ok (C6_supplyArc 2 c) _ rfl
      ((get_constraints_supply (C6_supplyArc 2 c) rfl).trans hsup) rfl
    have hdem : DemandLayer.get_constraints (C6_demandArc 2 c) =
        Except.error (PyError.dimensionMismatch c 3) :=
      demand_constraints_dim (C6_demandArc 2 c) (mkArcs "S_" "D_" 2 c) rfl hc
    have hb1 := buildLayer_err (C6_demandArc 2 c) _
      ((get_constraints_demand (C6_demandArc 2 c) rfl).trans hdem)
    have hbuild := build_two_err1 (C6_connect 2 c data).1 _ _ _ _ hkeys h0 h1 hb0 hb1
    have hss := solveStep_build_err oracle _ _ hclean hbuild
    have hgc := get_cost_err oracle _ _ _ hss
    exact ⟨c, 3, by rw [hgc]⟩
  · have hsup : SupplyLayer.get_constraints (C6_supplyArc r c) =
        Except.error (PyError.dimensionMismatch r 2) :=
      supply_constraints_dim (C6_supplyArc r c) (mkArcs "S_" "D_" r c) rfl hr
    have hb0 := buildLayer_err (C6_supplyArc r c) _
      ((get_constraints_supply (C6_supplyArc r c) rfl).trans hsup)
    have hbuild := build_two_err0 (C6_connect r c data).1 _ _ hkeys h0 hb0
    have hss := solveStep_build_err oracle _ _ hclean hbuild
    have hgc := get_cost_err oracle _ _ _ hss
    exact ⟨r, 2, by rw [hgc]⟩

/-- Witness for C6 at the concrete shape 2 by 2. -/
theorem C6_shape_mismatch_witness :
    (C6_connect 2 2 [[1, 1], [1, 1]]).2 = none ∧
    ∃ a b, ((C6_connect 2 2 [[1, 1], [1, 1]]).1.get_cost oracleOpt).2 =
      Except.error (PyError.dimensionMismatch a b) :=
  C6_shape_mismatch 2 2 [[1, 1], [1, 1]] oracleOpt (by decide)
